import Mathlib

/-!
Mython statement evaluation (statement.cpp).

A shallow embedding of the Execute methods of the AST nodes of the Mython
interpreter, followed by theorems about them.

Conventions of the embedding.

* An ObjectHolder is a possibly empty handle to a runtime object.  Class
  instances have reference semantics: a holder of an instance carries the
  identity of the instance object, and the mutable field table of every
  instance object lives in the heap component of the evaluation state.
* Execute(closure, context) becomes exec, which passes the closure and the
  context explicitly and returns the updated ones.
* A C++ Execute call can finish in three ways: it returns a holder, it throws
  an ObjectHolder (the transfer performed by Return), or it throws a standard
  exception.  These are the three constructors of Result.
* Method calls make evaluation recursive without a syntactic bound, so exec
  takes a recursion budget; the answer none means that the budget was too
  small.
-/

namespace Mython

/-! ## Values -/

/-- Handle to a runtime object (runtime::ObjectHolder).  None is the empty
handle.  A class is named by its index in the class table of the program, an
instance by the class it was built from and the identity of the instance
object. -/
inductive ObjectHolder where
  | None
  | Number (value : Int)
  | String (value : String)
  | Bool (value : Bool)
  | Class (cls : Nat)
  | ClassInstance (cls : Nat) (id : Nat)
  deriving DecidableEq, Repr

/-- The ways an Execute call can fail other than by the return transfer.
runtimeError is a thrown runtime_error with its message, outOfRange is the
out_of_range exception thrown by the at accessor of a standard map, and
undefined stands for C++ undefined behaviour (the arrow applied to the null
result of TryAs, the index 0 of an empty vector); evaluation stops there.
noSuchMethod is raised by the runtime library when a call finds no method. -/
inductive Error where
  | runtimeError (what : String)
  | outOfRange
  | undefined
  | noSuchMethod
  deriving DecidableEq, Repr

/-- The error thrown as runtime_error("Unknown name"). -/
def UnknownName : Error := Error.runtimeError "Unknown name"

/-- The error thrown as runtime_error("Incorrect operation"). -/
def IncorrectOperation : Error := Error.runtimeError "Incorrect operation"

/-- How an Execute call finishes: a returned holder, a thrown holder (the
transfer started by a Return node), or a thrown exception. -/
inductive Result where
  | value (v : ObjectHolder)
  | returned (v : ObjectHolder)
  | error (e : Error)
  deriving DecidableEq, Repr

/-! ## Maps, closures, heap -/

/-- Lookup in a map kept as an association list with unique keys
(count / at of the standard map). -/
def mapFind {κ α : Type} [DecidableEq κ] : List (κ × α) → κ → Option α
  | [], _ => none
  | (k, v) :: m, key => if k = key then some v else mapFind m key

/-- The assignment m[key] = v of the standard map: overwrite or create. -/
def mapAssign {κ α : Type} [DecidableEq κ] : List (κ × α) → κ → α → List (κ × α)
  | [], key, v => [(key, v)]
  | (k, w) :: m, key, v =>
    if k = key then (k, v) :: m else (k, w) :: mapAssign m key v

/-- Variable environment of one invocation (runtime::Closure). -/
abbrev Closure := List (String × ObjectHolder)

/-- Field table of one class instance (the result of Fields()). -/
abbrev Fields := List (String × ObjectHolder)

/-- Field tables of the instance objects, by instance identity.  An instance
without an entry has no fields yet. -/
abbrev Heap := List (Nat × Fields)

/-- The field table of the instance object with identity id. -/
def fieldsOf (heap : Heap) (id : Nat) : Fields :=
  (mapFind heap id).getD []

/-- The state every Execute call threads besides the closure: the text written
so far to the output stream of the Context, and the instance objects reachable
through holders. -/
structure Context where
  output : String
  heap : Heap
  deriving DecidableEq, Repr

/-! ## Numbers -/

/-- Reduction of an integer to the range of the 32-bit int held by a Number. -/
def wrapInt (x : Int) : Int := (x + 2147483648) % 4294967296 - 2147483648

/-- Membership in the range of int. -/
def InIntRange (x : Int) : Prop := -2147483648 ≤ x ∧ x ≤ 2147483647

/-- The C++ quotient a / b of two ints, for a nonzero divisor: truncation
toward zero.  The quotient of the least int by -1 is not an int and the
division is undefined behaviour there: no value. -/
def intDiv (a b : Int) : Option Int :=
  if a = -2147483648 ∧ b = -1 then none else some (Int.tdiv a b)

/-! ## Syntax -/

/-- Relational predicate injected into a Comparison node.  It may throw. -/
abbrev Comparator := ObjectHolder → ObjectHolder → Context → Except Error Bool

/-- The AST nodes.  Print carries both of its members: the single legacy
argument and the argument list.  A NewInstance node owns an instance object,
its member new_class_, built from a class when the node is constructed: cls is
that class and id the identity of the member object. -/
inductive Statement where
  /-- Modelled from the spec: a literal node (the literal nodes are defined in
  the header, not under src/); evaluating it yields the value it carries. -/
  | Const (v : ObjectHolder)
  | VariableValue (dotted_ids : List String)
  | Assignment (var_name : String) (rv : Statement)
  | FieldAssignment (object : List String) (field_name : String) (rv : Statement)
  | Print (argument : Option Statement) (args : List Statement)
  | MethodCall (object : Statement) (method : String) (args : List Statement)
  | Stringify (argument : Statement)
  | Add (lhs rhs : Statement)
  | Sub (lhs rhs : Statement)
  | Mult (lhs rhs : Statement)
  | Div (lhs rhs : Statement)
  | Compound (statements : List Statement)
  | Return (statement : Statement)
  | ClassDefinition (cls : ObjectHolder)
  | IfElse (condition if_body : Statement) (else_body : Option Statement)
  | Or (lhs rhs : Statement)
  | And (lhs rhs : Statement)
  | Not (argument : Statement)
  | Comparison (cmp : Comparator) (lhs rhs : Statement)
  | NewInstance (cls : Nat) (id : Nat) (args : List Statement)
  | MethodBody (body : Statement)

/-- A method of a class: name, formal parameters, body. -/
structure Method where
  name : String
  formal_params : List String
  body : Statement

/-- A class: name, methods, optional parent (an index in the class table). -/
structure Class where
  name : String
  methods : List Method
  parent : Option Nat

/-- What the evaluation core consumes from the rest of the program: the class
table, the text that the Print method of a Bool, Class or ClassInstance object
writes, and the order in which the compiler evaluates the two operand
expressions written as arguments of one call in Comparison::Execute. -/
structure Runtime where
  classes : List Class
  render : ObjectHolder → Heap → String
  rhsFirst : Bool

/-! ## The runtime library -/

/-- Modelled from the spec: method resolution of the runtime library
(Class::GetMethod with the arity test of ClassInstance::HasMethod, not under
src/).  Lookup of a method by name and argument count on a class, then along
its ancestor chain, until found or exhausted.  The first argument bounds the
length of the chain. -/
def getMethod (classes : List Class) : Nat → Nat → String → Nat → Option Method
  | 0, _, _, _ => none
  | depth + 1, cls, name, argc =>
    match classes.get? cls with
    | none => none
    | some c =>
      match c.methods.find? (fun m => m.name = name && m.formal_params.length = argc) with
      | some m => some m
      | none =>
        match c.parent with
        | none => none
        | some p => getMethod classes depth p name argc

/-- Modelled from the spec: ClassInstance::HasMethod of the runtime library
(not under src/): the class of the instance, or an ancestor, has a method with
this name and argument count. -/
def hasMethod (rt : Runtime) (cls : Nat) (name : String) (argc : Nat) : Bool :=
  (getMethod rt.classes rt.classes.length cls name argc).isSome

/-- Modelled from the spec: the closure a method body runs in (built by
ClassInstance::Call of the runtime library, not under src/): the receiver
bound to self and the parameters bound to the evaluated arguments. -/
def bindParams : Closure → List String → List ObjectHolder → Closure
  | closure, p :: ps, v :: vs => bindParams (mapAssign closure p v) ps vs
  | closure, _, _ => closure

/-- Modelled from the spec: the Print method of a runtime object (not under
src/): a Number writes its decimal digits, a String its raw text, other
objects the text given by the runtime. -/
def printedText (rt : Runtime) (heap : Heap) : ObjectHolder → String
  | ObjectHolder.Number n => toString n
  | ObjectHolder.String s => s
  | v => rt.render v heap

/-! ## Evaluation -/

/-- What an evaluation step hands back: how it finished, the closure and the
context after it; none when the recursion budget ran out. -/
abbrev Outcome := Option (Result × Closure × Context)

/-- Sequencing of Execute calls: continue with the returned holder, or stop
with the thrown holder or exception (or the exhausted budget). -/
def andThen (r : Outcome) (k : ObjectHolder → Closure → Context → Outcome) : Outcome :=
  match r with
  | some (Result.value v, closure, context) => k v closure context
  | other => other

/-- The walk of VariableValue::Execute along the segments after the head:
every segment but the last is read with at from the field table of the
instance held so far, the last one is tested with count first. -/
def walkFields (heap : Heap) : ObjectHolder → List String → Result
  | _, [] => Result.error Error.undefined
  | obj, [last] =>
    match obj with
    | ObjectHolder.ClassInstance _ id =>
      match mapFind (fieldsOf heap id) last with
      | some v => Result.value v
      | none => Result.error UnknownName
    | _ => Result.error Error.undefined
  | obj, seg :: rest =>
    match obj with
    | ObjectHolder.ClassInstance _ id =>
      match mapFind (fieldsOf heap id) seg with
      | some v => walkFields heap v rest
      | none => Result.error Error.outOfRange
    | _ => Result.error Error.undefined

/-- VariableValue::Execute.  It reads the closure and the heap only. -/
def variableValue (dotted_ids : List String) (closure : Closure) (heap : Heap) : Result :=
  match dotted_ids with
  | [] => Result.error Error.undefined
  | [name] =>
    match mapFind closure name with
    | some v => Result.value v
    | none => Result.error UnknownName
  | head :: rest =>
    match mapFind closure head with
    | some obj => walkFields heap obj rest
    | none => Result.error Error.outOfRange

/-- The loop that evaluates argument expressions left to right into
actual_args (MethodCall::Execute, NewInstance::Execute). -/
def evalArgs (ev : Statement → Closure → Context → Outcome) :
    List Statement → Closure → Context → Option (Except Result (List ObjectHolder) × Closure × Context)
  | [], closure, context => some (Except.ok [], closure, context)
  | arg :: rest, closure, context =>
    match ev arg closure context with
    | none => none
    | some (Result.value v, c1, x1) =>
      match evalArgs ev rest c1 x1 with
      | none => none
      | some (Except.ok vs, c2, x2) => some (Except.ok (v :: vs), c2, x2)
      | some (Except.error r, c2, x2) => some (Except.error r, c2, x2)
    | some (r, c1, x1) => some (Except.error r, c1, x1)

/-- The loop of Compound::Execute: every statement in order, values dropped. -/
def execStatements (ev : Statement → Closure → Context → Outcome) :
    List Statement → Closure → Context → Outcome
  | [], closure, context => some (Result.value ObjectHolder.None, closure, context)
  | stmt :: rest, closure, context =>
    andThen (ev stmt closure context) fun _ c1 x1 => execStatements ev rest c1 x1

/-- What Print::Execute writes for one evaluated argument: the text None for
the empty holder, else what the Print method of the object writes. -/
def writeValue (rt : Runtime) (v : ObjectHolder) (context : Context) : Context :=
  match v with
  | ObjectHolder.None => { context with output := context.output ++ "None" }
  | _ => { context with output := context.output ++ printedText rt context.heap v }

/-- The argument loop of Print::Execute for a non-empty list: every argument
but the last is evaluated, written and followed by a space; the last one is
evaluated and written. -/
def printArgs (rt : Runtime) (ev : Statement → Closure → Context → Outcome) :
    List Statement → Closure → Context → Outcome
  | [], closure, context => some (Result.value ObjectHolder.None, closure, context)
  | [arg], closure, context =>
    andThen (ev arg closure context) fun v c1 x1 =>
      some (Result.value ObjectHolder.None, c1, writeValue rt v x1)
  | arg :: rest, closure, context =>
    andThen (ev arg closure context) fun v c1 x1 =>
      let x2 := writeValue rt v x1
      printArgs rt ev rest c1 { x2 with output := x2.output ++ " " }

/-- Modelled from the spec: ClassInstance::Call of the runtime library (not
under src/).  Dispatch by method name and argument count through the class of
the instance; the matched body runs, wrapped as a MethodBody, in a closure of
its own with the receiver bound to self and the parameters bound to the
arguments.  No matching method is an error. -/
def call (rt : Runtime) (ev : Statement → Closure → Context → Outcome)
    (cls id : Nat) (method : String) (actual_args : List ObjectHolder)
    (context : Context) : Option (Result × Context) :=
  match getMethod rt.classes rt.classes.length cls method actual_args.length with
  | none => some (Result.error Error.noSuchMethod, context)
  | some m =>
    match ev (Statement.MethodBody m.body)
        (bindParams [("self", ObjectHolder.ClassInstance cls id)] m.formal_params actual_args)
        context with
    | none => none
    | some (r, _, x1) => some (r, x1)

/-- A call result seen from the calling Execute, whose closure is untouched. -/
def withClosure (closure : Closure) (r : Option (Result × Context)) : Outcome :=
  match r with
  | none => none
  | some (res, context) => some (res, closure, context)

/-- The text Stringify::Execute puts in the new String. -/
def stringifyText (rt : Runtime) (heap : Heap) : ObjectHolder → String
  | ObjectHolder.Number n => toString n
  | ObjectHolder.String s => s
  | ObjectHolder.ClassInstance cls id => printedText rt heap (ObjectHolder.ClassInstance cls id)
  | _ => "None"

/-- The dispatch of Add::Execute on the two operand values. -/
def addValues (rt : Runtime) (ev : Statement → Closure → Context → Outcome)
    (lhs rhs : ObjectHolder) (closure : Closure) (context : Context) : Outcome :=
  match lhs, rhs with
  | ObjectHolder.Number a, ObjectHolder.Number b =>
    some (Result.value (ObjectHolder.Number (wrapInt (a + b))), closure, context)
  | ObjectHolder.String s, ObjectHolder.String t =>
    some (Result.value (ObjectHolder.String (s ++ t)), closure, context)
  | ObjectHolder.ClassInstance cls id, _ =>
    if hasMethod rt cls "__add__" 1 then
      withClosure closure (call rt ev cls id "__add__" [rhs] context)
    else some (Result.error IncorrectOperation, closure, context)
  | _, _ => some (Result.error IncorrectOperation, closure, context)

/-- The dispatch of Mult::Execute on the two operand values. -/
def multValues (lhs rhs : ObjectHolder) : Result :=
  match lhs, rhs with
  | ObjectHolder.Number a, ObjectHolder.Number b =>
    Result.value (ObjectHolder.Number (wrapInt (a * b)))
  | _, _ => Result.error IncorrectOperation

/-- The dispatch of Div::Execute on the two operand values. -/
def divValues (lhs rhs : ObjectHolder) : Result :=
  match lhs, rhs with
  | ObjectHolder.Number a, ObjectHolder.Number b =>
    if b ≠ 0 then
      match intDiv a b with
      | some q => Result.value (ObjectHolder.Number q)
      | none => Result.error Error.undefined
    else Result.error IncorrectOperation
  | _, _ => Result.error IncorrectOperation

/-- The Execute method of every node.  The first argument is the recursion
budget. -/
def exec (rt : Runtime) : Nat → Statement → Closure → Context → Outcome
  | 0, _, _, _ => none
  | fuel + 1, stmt, closure, context =>
    let ev := exec rt fuel
    match stmt with
    | Statement.Const v => some (Result.value v, closure, context)
    | Statement.VariableValue dotted_ids =>
      some (variableValue dotted_ids closure context.heap, closure, context)
    | Statement.Assignment var_name rv =>
      andThen (ev rv closure context) fun v c1 x1 =>
        some (Result.value v, mapAssign c1 var_name v, x1)
    | Statement.FieldAssignment object field_name rv =>
      andThen (ev rv closure context) fun v c1 x1 =>
        match variableValue object c1 x1.heap with
        | Result.value (ObjectHolder.ClassInstance _ id) =>
          some (Result.value v, c1,
            { x1 with heap := mapAssign x1.heap id (mapAssign (fieldsOf x1.heap id) field_name v) })
        | Result.value _ => some (Result.error Error.undefined, c1, x1)
        | r => some (r, c1, x1)
    | Statement.Print argument args =>
      let legacy : Outcome :=
        match argument with
        | none => some (Result.value ObjectHolder.None, closure, context)
        | some a =>
          andThen (ev a closure context) fun v c1 x1 =>
            match v with
            | ObjectHolder.None =>
              some (Result.value ObjectHolder.None, c1, { x1 with output := x1.output ++ "None" })
            | _ =>
              andThen (ev a c1 x1) fun v2 c2 x2 =>
                match v2 with
                | ObjectHolder.None => some (Result.error Error.undefined, c2, x2)
                | _ =>
                  some (Result.value ObjectHolder.None, c2,
                    { x2 with output := x2.output ++ printedText rt x2.heap v2 })
      andThen legacy fun _ c1 x1 =>
        andThen (printArgs rt ev args c1 x1) fun _ c2 x2 =>
          some (Result.value ObjectHolder.None, c2, { x2 with output := x2.output ++ "\n" })
    | Statement.MethodCall object method args =>
      match evalArgs ev args closure context with
      | none => none
      | some (Except.error r, c1, x1) => some (r, c1, x1)
      | some (Except.ok actual_args, c1, x1) =>
        andThen (ev object c1 x1) fun obj c2 x2 =>
          match obj with
          | ObjectHolder.ClassInstance cls id =>
            withClosure c2 (call rt ev cls id method actual_args x2)
          | _ => some (Result.error Error.undefined, c2, x2)
    | Statement.Stringify argument =>
      andThen (ev argument closure context) fun v c1 x1 =>
        some (Result.value (ObjectHolder.String (stringifyText rt x1.heap v)), c1, x1)
    | Statement.Add lhs rhs =>
      andThen (ev lhs closure context) fun a c1 x1 =>
        andThen (ev rhs c1 x1) fun b c2 x2 => addValues rt ev a b c2 x2
    | Statement.Sub lhs rhs =>
      andThen (ev lhs closure context) fun a c1 x1 =>
        andThen (ev rhs c1 x1) fun b c2 x2 =>
          match a with
          | ObjectHolder.Number m =>
            andThen (ev rhs c2 x2) fun b2 c3 x3 =>
              match b2 with
              | ObjectHolder.Number _ =>
                match b with
                | ObjectHolder.Number n =>
                  some (Result.value (ObjectHolder.Number (wrapInt (m - n))), c3, x3)
                | _ => some (Result.error Error.undefined, c3, x3)
              | _ => some (Result.error IncorrectOperation, c3, x3)
          | _ => some (Result.error IncorrectOperation, c2, x2)
    | Statement.Mult lhs rhs =>
      andThen (ev lhs closure context) fun a c1 x1 =>
        andThen (ev rhs c1 x1) fun b c2 x2 => some (multValues a b, c2, x2)
    | Statement.Div lhs rhs =>
      andThen (ev lhs closure context) fun a c1 x1 =>
        andThen (ev rhs c1 x1) fun b c2 x2 => some (divValues a b, c2, x2)
    | Statement.Compound statements => execStatements ev statements closure context
    | Statement.Return statement =>
      andThen (ev statement closure context) fun v c1 x1 => some (Result.returned v, c1, x1)
    | Statement.ClassDefinition cls =>
      match cls with
      | ObjectHolder.Class c =>
        match rt.classes.get? c with
        | some decl => some (Result.value cls, mapAssign closure decl.name cls, context)
        | none => some (Result.error Error.undefined, closure, context)
      | _ => some (Result.error Error.undefined, closure, context)
    | Statement.IfElse condition if_body else_body =>
      andThen (ev condition closure context) fun c c1 x1 =>
        match c with
        | ObjectHolder.Bool true => ev if_body c1 x1
        | ObjectHolder.Bool false =>
          match else_body with
          | some e => ev e c1 x1
          | none => some (Result.value ObjectHolder.None, c1, x1)
        | _ => some (Result.error Error.undefined, c1, x1)
    | Statement.Or lhs rhs =>
      andThen (ev lhs closure context) fun a c1 x1 =>
        match a with
        | ObjectHolder.Bool true => some (Result.value a, c1, x1)
        | ObjectHolder.Bool false => ev rhs c1 x1
        | _ => some (Result.error Error.undefined, c1, x1)
    | Statement.And lhs rhs =>
      andThen (ev lhs closure context) fun a c1 x1 =>
        match a with
        | ObjectHolder.Bool false => some (Result.value a, c1, x1)
        | ObjectHolder.Bool true => ev rhs c1 x1
        | _ => some (Result.error Error.undefined, c1, x1)
    | Statement.Not argument =>
      andThen (ev argument closure context) fun a c1 x1 =>
        match a with
        | ObjectHolder.Bool b => some (Result.value (ObjectHolder.Bool (!b)), c1, x1)
        | _ => some (Result.error Error.undefined, c1, x1)
    | Statement.Comparison cmp lhs rhs =>
      let finish (a b : ObjectHolder) (c2 : Closure) (x2 : Context) : Outcome :=
        match cmp a b x2 with
        | Except.ok r => some (Result.value (ObjectHolder.Bool r), c2, x2)
        | Except.error e => some (Result.error e, c2, x2)
      if rt.rhsFirst then
        andThen (ev rhs closure context) fun b c1 x1 =>
          andThen (ev lhs c1 x1) fun a c2 x2 => finish a b c2 x2
      else
        andThen (ev lhs closure context) fun a c1 x1 =>
          andThen (ev rhs c1 x1) fun b c2 x2 => finish a b c2 x2
    | Statement.NewInstance cls id args =>
      if hasMethod rt cls "__init__" args.length then
        match evalArgs ev args closure context with
        | none => none
        | some (Except.error r, c1, x1) => some (r, c1, x1)
        | some (Except.ok actual_args, c1, x1) =>
          match call rt ev cls id "__init__" actual_args x1 with
          | none => none
          | some (Result.value _, x2) =>
            some (Result.value (ObjectHolder.ClassInstance cls id), c1, x2)
          | some (r, x2) => some (r, c1, x2)
      else some (Result.value (ObjectHolder.ClassInstance cls id), closure, context)
    | Statement.MethodBody body =>
      match ev body closure context with
      | none => none
      | some (Result.returned obj, c1, x1) => some (Result.value obj, c1, x1)
      | some (r, c1, x1) => some (r, c1, x1)

/-! ## Notions used to state the properties -/

/-- Execution of a statement reaches a Return node: the statement is a Return
whose operand evaluates to v, or a Compound in which the statements before
some statement complete normally and that statement reaches a Return, or an
IfElse whose condition selects a branch that reaches a Return.  The closure
and context are those right after the evaluation of the operand of the
Return.  The first index is the recursion budget of exec. -/
inductive ReachesReturn (rt : Runtime) :
    Nat → Statement → Closure → Context → ObjectHolder → Closure → Context → Prop where
  | ret (fuel : Nat) (e : Statement) (c : Closure) (x : Context) (v : ObjectHolder)
      (c1 : Closure) (x1 : Context) :
      exec rt fuel e c x = some (Result.value v, c1, x1) →
      ReachesReturn rt (fuel + 1) (Statement.Return e) c x v c1 x1
  | compound (fuel : Nat) (pre : List Statement) (st : Statement) (post : List Statement)
      (c : Closure) (x : Context) (c1 : Closure) (x1 : Context) (v : ObjectHolder)
      (c2 : Closure) (x2 : Context) :
      execStatements (exec rt fuel) pre c x = some (Result.value ObjectHolder.None, c1, x1) →
      ReachesReturn rt fuel st c1 x1 v c2 x2 →
      ReachesReturn rt (fuel + 1) (Statement.Compound (pre ++ st :: post)) c x v c2 x2
  | ifTrue (fuel : Nat) (cond body : Statement) (els : Option Statement)
      (c : Closure) (x : Context) (c1 : Closure) (x1 : Context) (v : ObjectHolder)
      (c2 : Closure) (x2 : Context) :
      exec rt fuel cond c x = some (Result.value (ObjectHolder.Bool true), c1, x1) →
      ReachesReturn rt fuel body c1 x1 v c2 x2 →
      ReachesReturn rt (fuel + 1) (Statement.IfElse cond body els) c x v c2 x2
  | ifFalse (fuel : Nat) (cond body els : Statement)
      (c : Closure) (x : Context) (c1 : Closure) (x1 : Context) (v : ObjectHolder)
      (c2 : Closure) (x2 : Context) :
      exec rt fuel cond c x = some (Result.value (ObjectHolder.Bool false), c1, x1) →
      ReachesReturn rt fuel els c1 x1 v c2 x2 →
      ReachesReturn rt (fuel + 1) (Statement.IfElse cond body (some els)) c x v c2 x2

/-- The text Print::Execute writes for one evaluated argument. -/
def shownText (rt : Runtime) (heap : Heap) (v : ObjectHolder) : String :=
  match v with
  | ObjectHolder.None => "None"
  | _ => printedText rt heap v

/-- The argument expressions are evaluated once each, from left to right:
the first one in closure c and context x, every later one in the closure and
context its predecessor left; they yield the values vs, in this order, and the
last one leaves closure c2 and context x2. -/
inductive ArgsEval (ev : Statement → Closure → Context → Outcome) :
    List Statement → Closure → Context → List ObjectHolder → Closure → Context → Prop where
  | nil (c : Closure) (x : Context) : ArgsEval ev [] c x [] c x
  | cons (a : Statement) (rest : List Statement) (c : Closure) (x : Context) (v : ObjectHolder)
      (c1 : Closure) (x1 : Context) (vs : List ObjectHolder) (c2 : Closure) (x2 : Context) :
      ev a c x = some (Result.value v, c1, x1) →
      ArgsEval ev rest c1 x1 vs c2 x2 →
      ArgsEval ev (a :: rest) c x (v :: vs) c2 x2

/-- The text a Print of several arguments appends before its newline, given
for each argument the text its own evaluation wrote and the rendering of its
value: both in turn, with one space between consecutive arguments. -/
def appendedText : List (String × String) → String
  | [] => ""
  | [(w, r)] => w ++ r
  | (w, r) :: rest => w ++ r ++ " " ++ appendedText rest

/-- The arguments of a Print are evaluated once each, from left to right,
every one in the closure and heap its predecessor left and with the output
holding everything written so far, the rendering of the predecessor and the
space after it included.  Argument by argument, pieces gives the text w that
the evaluation itself appended to the output and the rendering of the value;
c2 and h2 are the closure and heap the last argument left. -/
inductive ArgsRun (rt : Runtime) (ev : Statement → Closure → Context → Outcome) :
    List Statement → Closure → Context → List (String × String) → Closure → Heap → Prop where
  | nil (c : Closure) (x : Context) : ArgsRun rt ev [] c x [] c x.heap
  | last (a : Statement) (c : Closure) (x : Context) (v : ObjectHolder)
      (c1 : Closure) (x1 : Context) (w : String) :
      ev a c x = some (Result.value v, c1, x1) →
      x1.output = x.output ++ w →
      ArgsRun rt ev [a] c x [(w, shownText rt x1.heap v)] c1 x1.heap
  | more (a b : Statement) (rest : List Statement) (c : Closure) (x : Context)
      (v : ObjectHolder) (c1 : Closure) (x1 : Context) (w : String)
      (pieces : List (String × String)) (c2 : Closure) (h2 : Heap) :
      ev a c x = some (Result.value v, c1, x1) →
      x1.output = x.output ++ w →
      ArgsRun rt ev (b :: rest) c1 ⟨x1.output ++ shownText rt x1.heap v ++ " ", x1.heap⟩
        pieces c2 h2 →
      ArgsRun rt ev (a :: b :: rest) c x ((w, shownText rt x1.heap v) :: pieces) c2 h2

/-! ## Example programs -/

/-- A runtime with three classes: Factory, whose method make returns the
result of a NewInstance node for Item; Item, without methods; Point, with a
constructor storing its argument in the field x and an addition method. -/
def sampleRuntime : Runtime where
  classes :=
    [ { name := "Factory"
        methods := [ { name := "make", formal_params := [],
                       body := Statement.Return (Statement.NewInstance 1 7 []) } ]
        parent := none },
      { name := "Item", methods := [], parent := none },
      { name := "Point"
        methods :=
          [ { name := "__init__", formal_params := ["x"],
              body := Statement.FieldAssignment ["self"] "x" (Statement.VariableValue ["x"]) },
            { name := "__add__", formal_params := ["other"],
              body := Statement.Return
                (Statement.Add (Statement.VariableValue ["self", "x"])
                  (Statement.VariableValue ["other"])) } ]
        parent := none } ]
  render := fun _ _ => "<object>"
  rhsFirst := false

/-- The context before anything was written or stored. -/
def emptyContext : Context := ⟨"", []⟩

/-- Literal node for a number. -/
def num (n : Int) : Statement := Statement.Const (ObjectHolder.Number n)

/-- A method body that assigns, returns from inside a conditional nested in
the block, and has statements after the Return in both blocks. -/
def earlyReturnBody : Statement :=
  Statement.Compound
    [ Statement.Assignment "x" (num 1),
      Statement.IfElse (Statement.Const (ObjectHolder.Bool true))
        (Statement.Compound
          [ Statement.Return (Statement.VariableValue ["x"]),
            Statement.Print none [num 2] ])
        none,
      Statement.Assignment "x" (num 3),
      Statement.Print none [num 4] ]

/-- A program that calls the method make of a Factory twice, keeps the two
results in a and b, and writes the field v through a between the calls. -/
def twoCallsProgram : Statement :=
  Statement.Compound
    [ Statement.Assignment "a" (Statement.MethodCall (Statement.VariableValue ["f"]) "make" []),
      Statement.FieldAssignment ["a"] "v" (num 1),
      Statement.Assignment "b" (Statement.MethodCall (Statement.VariableValue ["f"]) "make" []) ]

/-- The statement n = n + 1, whose evaluations are counted by n. -/
def increment (name : String) : Statement :=
  Statement.Assignment name (Statement.Add (Statement.VariableValue [name]) (num 1))

/-- A condition that increments n and then has the given truth value: a
comparison of the incremented n, under a comparator that holds for all
operands, combined by And with the truth value. -/
def countingCondition (b : Bool) : Statement :=
  Statement.And
    (Statement.Comparison (fun _ _ _ => Except.ok true) (increment "n") (num 0))
    (Statement.Const (ObjectHolder.Bool b))

/-- A runtime with one class, Tagged, whose method tag takes one argument and
returns the field t of the receiver. -/
def tagRuntime : Runtime where
  classes :=
    [ { name := "Tagged"
        methods := [ { name := "tag", formal_params := ["ignored"],
                       body := Statement.Return (Statement.VariableValue ["self", "t"]) } ]
        parent := none } ]
  render := fun _ _ => "<object>"
  rhsFirst := false

/-- A closure with p and q bound to two different Tagged instances. -/
def twoTagged : Closure :=
  [("p", ObjectHolder.ClassInstance 0 0), ("q", ObjectHolder.ClassInstance 0 1)]

/-- A context in which the field t of the first instance is 1 and the field t
of the second is 2. -/
def twoTaggedContext : Context :=
  ⟨"", [(0, [("t", ObjectHolder.Number 1)]), (1, [("t", ObjectHolder.Number 2)])]⟩

/-- The call p.tag(p = q): its argument rebinds the name of the receiver. -/
def rebindingCall : Statement :=
  Statement.MethodCall (Statement.VariableValue ["p"]) "tag"
    [Statement.Assignment "p" (Statement.VariableValue ["q"])]

/-- A runtime with one class, Pair, whose constructor stores its two
arguments in the fields a and b, and whose method sum takes three arguments
and returns the field t of the receiver plus the first two. -/
def pairRuntime : Runtime where
  classes :=
    [ { name := "Pair"
        methods :=
          [ { name := "__init__", formal_params := ["a", "b"],
              body := Statement.Compound
                [ Statement.FieldAssignment ["self"] "a" (Statement.VariableValue ["a"]),
                  Statement.FieldAssignment ["self"] "b" (Statement.VariableValue ["b"]) ] },
            { name := "sum", formal_params := ["a", "b", "ignored"],
              body := Statement.Return
                (Statement.Add
                  (Statement.Add (Statement.VariableValue ["self", "t"])
                    (Statement.VariableValue ["a"]))
                  (Statement.VariableValue ["b"])) } ]
        parent := none } ]
  render := fun _ _ => "<object>"
  rhsFirst := false

/-- Two argument expressions whose values depend on the order of evaluation:
n = n + 1 and then n * 10. -/
def orderedArgs : List Statement :=
  [increment "n", Statement.Mult (Statement.VariableValue ["n"]) (num 10)]

/-- A closure with the counter n at 0 and p, q bound to two different Pair
instances. -/
def twoPairs : Closure :=
  [("n", ObjectHolder.Number 0), ("p", ObjectHolder.ClassInstance 0 0),
   ("q", ObjectHolder.ClassInstance 0 1)]

/-- The closure twoPairs after n = n + 1 and p = q. -/
def twoPairsAfter : Closure :=
  [("n", ObjectHolder.Number 1), ("p", ObjectHolder.ClassInstance 0 1),
   ("q", ObjectHolder.ClassInstance 0 1)]

/-- The call p.sum(n = n + 1, n * 10, p = q): the second argument reads what
the first wrote, and the third rebinds the name of the receiver. -/
def orderedRebindingCall : Statement :=
  Statement.MethodCall (Statement.VariableValue ["p"]) "sum"
    (orderedArgs ++ [Statement.Assignment "p" (Statement.VariableValue ["q"])])

/-! ## Helper lemmas -/

/-- A block whose leading statements complete normally and whose next
statement does not: the block finishes the way that statement does, in the
state that statement left, whatever follows it. -/
theorem execStatements_stops (ev : Statement → Closure → Context → Outcome)
    (pre : List Statement) (st : Statement) (post : List Statement)
    (c : Closure) (x : Context) (c1 : Closure) (x1 : Context)
    (r : Result) (c2 : Closure) (x2 : Context)
    (hpre : execStatements ev pre c x = some (Result.value ObjectHolder.None, c1, x1))
    (hst : ev st c1 x1 = some (r, c2, x2)) (hr : ∀ v, r ≠ Result.value v) :
    execStatements ev (pre ++ st :: post) c x = some (r, c2, x2) := by
  induction pre generalizing c x with
  | nil =>
    simp only [execStatements, Option.some.injEq, Prod.mk.injEq, true_and] at hpre
    obtain ⟨rfl, rfl⟩ := hpre
    simp only [List.nil_append, execStatements, hst]
    cases r with
    | value v => exact absurd rfl (hr v)
    | returned v => rfl
    | error e => rfl
  | cons p ps ih =>
    simp only [List.cons_append, execStatements] at hpre ⊢
    cases hp : ev p c x with
    | none => rw [hp] at hpre; simp [andThen] at hpre
    | some t =>
      obtain ⟨rp, cp, xp⟩ := t
      rw [hp] at hpre
      cases rp with
      | value v => exact ih cp xp hpre
      | returned v => simp [andThen] at hpre
      | error e => simp [andThen] at hpre

/-- A statement that reaches a Return finishes by the return transfer,
carrying the value of the operand, in the state the operand left. -/
theorem exec_of_reachesReturn (rt : Runtime) (fuel : Nat) (st : Statement)
    (c : Closure) (x : Context) (v : ObjectHolder) (c1 : Closure) (x1 : Context)
    (h : ReachesReturn rt fuel st c x v c1 x1) :
    exec rt fuel st c x = some (Result.returned v, c1, x1) := by
  induction h with
  | ret fuel e c x v c1 x1 he => simp only [exec, he, andThen]
  | compound fuel pre st post c x c1 x1 v c2 x2 hpre _ ih =>
    simp only [exec]
    exact execStatements_stops _ pre st post c x c1 x1 _ c2 x2 hpre ih (by intro w; simp)
  | ifTrue fuel cond body els c x c1 x1 v c2 x2 hc _ ih => simp only [exec, hc, andThen, ih]
  | ifFalse fuel cond body els c x c1 x1 v c2 x2 hc _ ih => simp only [exec, hc, andThen, ih]

/-- The argument loop follows the left-to-right evaluation of the arguments:
it ends with their values, in order, in the state the last one left. -/
theorem evalArgs_of_argsEval (ev : Statement → Closure → Context → Outcome)
    (args : List Statement) (c : Closure) (x : Context) (vs : List ObjectHolder)
    (c2 : Closure) (x2 : Context) (h : ArgsEval ev args c x vs c2 x2) :
    evalArgs ev args c x = some (Except.ok vs, c2, x2) := by
  induction h with
  | nil c x => rfl
  | cons a rest c x v c1 x1 vs c2 x2 ha _ ih => simp only [evalArgs, ha, ih]

/-! ## MethodBody and Return -/


/-- C1. When the body of a MethodBody reaches a Return node (directly in its
Compound or through nested Compound and IfElse nodes), MethodBody yields
exactly the value of the operand of the Return, and the closure and context
are those the operand left: no statement after the Return, in the same or an
enclosing block, has run.  A MethodBody never finishes by the return
transfer. -/
theorem methodBody_yields_returned_value (rt : Runtime) (fuel : Nat) (body : Statement)
    (c : Closure) (x : Context) (v : ObjectHolder) (c1 : Closure) (x1 : Context)
    (h : ReachesReturn rt fuel body c x v c1 x1) :
    exec rt (fuel + 1) (Statement.MethodBody body) c x = some (Result.value v, c1, x1) ∧
    ∀ (n : Nat) (b : Statement) (c2 : Closure) (x2 : Context) (w : ObjectHolder)
      (c3 : Closure) (x3 : Context),
      exec rt n (Statement.MethodBody b) c2 x2 ≠ some (Result.returned w, c3, x3) := by
  constructor
  · simp only [exec, exec_of_reachesReturn rt fuel body c x v c1 x1 h]
  · intro n b c2 x2 w c3 x3
    cases n with
    | zero => simp [exec]
    | succ n =>
      simp only [exec]
      cases hb : exec rt n b c2 x2 with
      | none => simp
      | some t =>
        obtain ⟨r, c4, x4⟩ := t
        cases r <;> simp

/-- Witness of C1 on a body that returns from a conditional nested in the
block: the result is the value of x at the Return, x keeps that value, and
nothing was printed. -/
theorem methodBody_yields_returned_value_witness :
    exec sampleRuntime 6 (Statement.MethodBody earlyReturnBody) [] emptyContext
        = some (Result.value (ObjectHolder.Number 1), [("x", ObjectHolder.Number 1)], emptyContext) :=
  (methodBody_yields_returned_value sampleRuntime 5 earlyReturnBody [] emptyContext
    (ObjectHolder.Number 1) [("x", ObjectHolder.Number 1)] emptyContext
    (ReachesReturn.compound 4 [Statement.Assignment "x" (num 1)] _
      [Statement.Assignment "x" (num 3), Statement.Print none [num 4]]
      [] emptyContext [("x", ObjectHolder.Number 1)] emptyContext _ _ _ (by decide)
      (ReachesReturn.ifTrue 3 _ _ none _ _ [("x", ObjectHolder.Number 1)] emptyContext _ _ _
        (by decide)
        (ReachesReturn.compound 2 [] _ [Statement.Print none [num 2]] _ _
          [("x", ObjectHolder.Number 1)] emptyContext _ _ _ (by decide)
          (ReachesReturn.ret 1 _ _ _ _ _ _ (by decide)))))).1

/-- C2 (the code departs from the claim).  A MethodBody whose body is the read
of a variable bound to 5 completes without any return transfer, and yields the
Number 5 that the body evaluated to, not None. -/
theorem methodBody_passes_body_value :
    exec sampleRuntime 2 (Statement.MethodBody (Statement.VariableValue ["y"]))
        [("y", ObjectHolder.Number 5)] emptyContext
      = some (Result.value (ObjectHolder.Number 5), [("y", ObjectHolder.Number 5)], emptyContext) ∧
    exec sampleRuntime 1 (Statement.VariableValue ["y"])
        [("y", ObjectHolder.Number 5)] emptyContext
      = some (Result.value (ObjectHolder.Number 5), [("y", ObjectHolder.Number 5)], emptyContext) := by
  decide

/-- C3. When the evaluation of the body raises an error, MethodBody raises
that same error in the same state, and yields no result value: only the
return transfer is intercepted. -/
theorem methodBody_propagates_error (rt : Runtime) (fuel : Nat) (body : Statement)
    (c : Closure) (x : Context) (e : Error) (c1 : Closure) (x1 : Context)
    (h : exec rt fuel body c x = some (Result.error e, c1, x1)) :
    exec rt (fuel + 1) (Statement.MethodBody body) c x = some (Result.error e, c1, x1) ∧
    ∀ (v : ObjectHolder) (c2 : Closure) (x2 : Context),
      exec rt (fuel + 1) (Statement.MethodBody body) c x ≠ some (Result.value v, c2, x2) := by
  have key : exec rt (fuel + 1) (Statement.MethodBody body) c x
      = some (Result.error e, c1, x1) := by
    simp only [exec, h]
  refine ⟨key, ?_⟩
  intro v c2 x2
  rw [key]
  simp

/-- Witness of C3: a body whose left operand reads an unbound name fails with
UnknownName, and so does its MethodBody. -/
theorem methodBody_propagates_error_witness :
    exec sampleRuntime 3 (Statement.MethodBody
        (Statement.Add (Statement.VariableValue ["x"]) (num 1))) [] emptyContext
      = some (Result.error UnknownName, [], emptyContext) :=
  (methodBody_propagates_error sampleRuntime 2
    (Statement.Add (Statement.VariableValue ["x"]) (num 1)) [] emptyContext
    UnknownName [] emptyContext (by decide)).1

/-! ## Arithmetic -/

/-- The truncated quotient of two ints is an int, except for the quotient of
the least int by -1. -/
theorem tdiv_inRange (a b : Int) (ha : InIntRange a) (hb : InIntRange b) (hb0 : b ≠ 0)
    (hcorner : ¬ (a = -2147483648 ∧ b = -1)) : InIntRange (Int.tdiv a b) := by
  unfold InIntRange at *
  by_cases h1 : b = 1
  · subst h1; rw [Int.tdiv_one]; exact ha
  by_cases h2 : b = -1
  · subst h2
    have : Int.tdiv a (-1) = -a := by rw [Int.tdiv_neg, Int.tdiv_one]
    rw [this]
    omega
  have hq : (Int.tdiv a b).natAbs = a.natAbs / b.natAbs := Int.natAbs_tdiv a b
  have hb2 : 2 ≤ b.natAbs := by omega
  have hle : a.natAbs / b.natAbs ≤ a.natAbs / 2 :=
    Nat.div_le_div_left hb2 (by decide)
  have ha2 : a.natAbs ≤ 2147483648 := by omega
  have : a.natAbs / 2 ≤ 1073741824 := by omega
  omega

/-- C4 (the claim as stated fails).  The least int divided by -1 has a nonzero
divisor, but its quotient is not an int: the division is undefined behaviour
and yields no Number. -/
theorem div_least_int_by_minus_one_counterexample :
    exec sampleRuntime 2 (Statement.Div (num (-2147483648)) (num (-1))) [] emptyContext
      = some (Result.error Error.undefined, [], emptyContext) :=
  by decide

/-- C4 (amended).  Div, on operands that evaluate to values: two Numbers with
a nonzero divisor, other than the least int divided by -1, give the Number
whose value is the quotient truncated toward zero, which is again an int when
the operands are; a zero divisor raises IncorrectOperation; an operand that is
not a Number raises the same IncorrectOperation. -/
theorem div_contract (rt : Runtime) (fuel : Nat) (lhs rhs : Statement)
    (c : Closure) (x : Context) (va vb : ObjectHolder)
    (c1 : Closure) (x1 : Context) (c2 : Closure) (x2 : Context)
    (hl : exec rt fuel lhs c x = some (Result.value va, c1, x1))
    (hr : exec rt fuel rhs c1 x1 = some (Result.value vb, c2, x2)) :
    (∀ a b : Int, va = ObjectHolder.Number a → vb = ObjectHolder.Number b → b ≠ 0 →
      ¬ (a = -2147483648 ∧ b = -1) →
      exec rt (fuel + 1) (Statement.Div lhs rhs) c x
        = some (Result.value (ObjectHolder.Number (Int.tdiv a b)), c2, x2) ∧
      (InIntRange a → InIntRange b → InIntRange (Int.tdiv a b))) ∧
    (∀ a : Int, va = ObjectHolder.Number a → vb = ObjectHolder.Number 0 →
      exec rt (fuel + 1) (Statement.Div lhs rhs) c x
        = some (Result.error IncorrectOperation, c2, x2)) ∧
    ((¬ ∃ a, va = ObjectHolder.Number a) ∨ (¬ ∃ b, vb = ObjectHolder.Number b) →
      exec rt (fuel + 1) (Statement.Div lhs rhs) c x
        = some (Result.error IncorrectOperation, c2, x2)) := by
  have key : exec rt (fuel + 1) (Statement.Div lhs rhs) c x
      = some (divValues va vb, c2, x2) := by
    simp only [exec, hl, hr, andThen]
  refine ⟨?_, ?_, ?_⟩
  · intro a b h1 h2 hb hcorner
    subst h1 h2
    refine ⟨?_, ?_⟩
    · rw [key]; simp [divValues, intDiv, hb, hcorner]
    · intro ha hb2
      exact tdiv_inRange a b ha hb2 hb hcorner
  · intro a h1 h2
    subst h1 h2
    rw [key]; simp [divValues]
  · intro h
    rw [key]
    cases va <;> cases vb <;> simp_all [divValues]

/-- Witness of C4: -7 / 2 is -3, 7 / 0 and 7 / "a" raise IncorrectOperation. -/
theorem div_contract_witness :
    exec sampleRuntime 2 (Statement.Div (num (-7)) (num 2)) [] emptyContext
      = some (Result.value (ObjectHolder.Number (-3)), [], emptyContext) ∧
    exec sampleRuntime 2 (Statement.Div (num 7) (num 0)) [] emptyContext
      = some (Result.error IncorrectOperation, [], emptyContext) ∧
    exec sampleRuntime 2 (Statement.Div (num 7) (Statement.Const (ObjectHolder.String "a")))
        [] emptyContext
      = some (Result.error IncorrectOperation, [], emptyContext) :=
  ⟨(((div_contract sampleRuntime 1 (num (-7)) (num 2) [] emptyContext
        (ObjectHolder.Number (-7)) (ObjectHolder.Number 2) [] emptyContext [] emptyContext
        (by decide) (by decide)).1 (-7) 2 rfl rfl (by decide) (by decide)).1).trans (by decide),
   (div_contract sampleRuntime 1 (num 7) (num 0) [] emptyContext
        (ObjectHolder.Number 7) (ObjectHolder.Number 0) [] emptyContext [] emptyContext
        (by decide) (by decide)).2.1 7 rfl rfl,
   (div_contract sampleRuntime 1 (num 7) (Statement.Const (ObjectHolder.String "a")) [] emptyContext
        (ObjectHolder.Number 7) (ObjectHolder.String "a") [] emptyContext [] emptyContext
        (by decide) (by decide)).2.2 (Or.inr (by simp))⟩

/-- C6. Or and And on a left operand that evaluates to a Bool.  When the left
value is true, Or gives that value in the state the left operand left, for
every right operand: the right operand is not evaluated.  When it is false,
And does the same.  Otherwise the node finishes exactly as the right operand
does, evaluated in the state the left operand left. -/
theorem or_and_short_circuit (rt : Runtime) (fuel : Nat) (lhs X : Statement)
    (c : Closure) (x : Context) (b : Bool) (c1 : Closure) (x1 : Context)
    (hl : exec rt fuel lhs c x = some (Result.value (ObjectHolder.Bool b), c1, x1)) :
    exec rt (fuel + 1) (Statement.Or lhs X) c x
      = (if b then some (Result.value (ObjectHolder.Bool true), c1, x1)
         else exec rt fuel X c1 x1) ∧
    exec rt (fuel + 1) (Statement.And lhs X) c x
      = (if b then exec rt fuel X c1 x1
         else some (Result.value (ObjectHolder.Bool false), c1, x1)) := by
  cases b <;> simp [exec, hl, andThen]

/-- Witness of C6, with a right operand that prints and then fails: Or after
true leaves the output alone and raises nothing; And after true finishes as
the right operand does. -/
theorem or_and_short_circuit_witness :
    exec sampleRuntime 4 (Statement.Or
        (Statement.Assignment "t" (Statement.Const (ObjectHolder.Bool true)))
        (Statement.Compound [Statement.Print none [num 1], Statement.VariableValue ["zz"]]))
        [] emptyContext
      = some (Result.value (ObjectHolder.Bool true), [("t", ObjectHolder.Bool true)], emptyContext) ∧
    exec sampleRuntime 4 (Statement.And
        (Statement.Assignment "t" (Statement.Const (ObjectHolder.Bool true)))
        (Statement.Compound [Statement.Print none [num 1], Statement.VariableValue ["zz"]]))
        [] emptyContext
      = some (Result.error UnknownName, [("t", ObjectHolder.Bool true)], ⟨"1\n", []⟩) :=
  ⟨((or_and_short_circuit sampleRuntime 3
        (Statement.Assignment "t" (Statement.Const (ObjectHolder.Bool true)))
        (Statement.Compound [Statement.Print none [num 1], Statement.VariableValue ["zz"]])
        [] emptyContext true [("t", ObjectHolder.Bool true)] emptyContext (by decide)).1).trans
      (by decide),
   ((or_and_short_circuit sampleRuntime 3
        (Statement.Assignment "t" (Statement.Const (ObjectHolder.Bool true)))
        (Statement.Compound [Statement.Print none [num 1], Statement.VariableValue ["zz"]])
        [] emptyContext true [("t", ObjectHolder.Bool true)] emptyContext (by decide)).2).trans
      (by decide)⟩

/-! ## Print -/

theorem intercalate_go_append (p acc s : String) (l : List String) :
    String.intercalate.go (p ++ acc) s l = p ++ String.intercalate.go acc s l := by
  induction l generalizing acc with
  | nil => simp [String.intercalate.go]
  | cons a l ih =>
    simp only [String.intercalate.go]
    rw [String.append_assoc, String.append_assoc, ← String.append_assoc acc s a]
    exact ih _

theorem intercalate_cons_cons (s a b : String) (l : List String) :
    s.intercalate (a :: b :: l) = a ++ s ++ s.intercalate (b :: l) := by
  simp only [String.intercalate, String.intercalate.go]
  rw [intercalate_go_append]

theorem writeValue_eq (rt : Runtime) (v : ObjectHolder) (x : Context) :
    writeValue rt v x = ⟨x.output ++ shownText rt x.heap v, x.heap⟩ := by
  cases v <;> rfl

/-- The argument loop of Print: it appends, argument by argument, what the
evaluation of the argument wrote and the rendering of its value, with a space
between consecutive arguments. -/
theorem printArgs_run (rt : Runtime) (ev : Statement → Closure → Context → Outcome)
    (args : List Statement) (c : Closure) (x : Context) (pieces : List (String × String))
    (c2 : Closure) (h2 : Heap) (h : ArgsRun rt ev args c x pieces c2 h2) :
    printArgs rt ev args c x
      = some (Result.value ObjectHolder.None, c2, ⟨x.output ++ appendedText pieces, h2⟩) := by
  induction h with
  | nil c x => simp [printArgs, appendedText]
  | last a c x v c1 x1 w ha hw =>
    simp [printArgs, ha, andThen, writeValue_eq, appendedText, hw, String.append_assoc]
  | more a b rest c x v c1 x1 w pieces c2 h2 ha hw hrest ih =>
    cases hrest with
    | last _ _ _ v2 _ x3 w2 hb hw2 =>
      simp only [printArgs, ha, andThen, writeValue_eq] at ih ⊢
      rw [ih]
      simp [appendedText, hw, String.append_assoc]
    | more _ b2 rest2 _ _ v2 c3 x3 w2 pieces2 _ _ hb hw2 hrest2 =>
      simp only [printArgs, ha, andThen, writeValue_eq] at ih ⊢
      rw [ih]
      simp [appendedText, hw, String.append_assoc]

/-- One piece per argument. -/
theorem argsRun_length (rt : Runtime) (ev : Statement → Closure → Context → Outcome)
    (args : List Statement) (c : Closure) (x : Context) (pieces : List (String × String))
    (c2 : Closure) (h2 : Heap) (h : ArgsRun rt ev args c x pieces c2 h2) :
    pieces.length = args.length := by
  induction h with
  | nil => rfl
  | last => rfl
  | more a b rest c x v c1 x1 w pieces c2 h2 _ _ _ ih => simp [ih]

/-- When no argument wrote anything itself, the appended text is the
renderings joined by single spaces. -/
theorem appendedText_silent (pieces : List (String × String))
    (h : ∀ p ∈ pieces, p.1 = "") :
    appendedText pieces = " ".intercalate (pieces.map Prod.snd) := by
  induction pieces with
  | nil => rfl
  | cons p rest ih =>
    obtain ⟨w, r⟩ := p
    have hw : w = "" := h (w, r) (List.mem_cons_self _ _)
    subst hw
    cases rest with
    | nil => simp [appendedText, String.intercalate, String.intercalate.go]
    | cons q rest2 =>
      have ih2 := ih (fun p hp => h p (List.mem_cons_of_mem _ hp))
      simp only [appendedText, List.map_cons]
      rw [intercalate_cons_cons, ← List.map_cons, ← ih2]
      simp [String.append_assoc]

/-- C7 (the claim as stated fails).  The argument of the outer Print is itself
a Print, which writes the line 1 and yields None: the outer Print appends the
text written by its argument as well as the rendering None and the newline,
not the rendering and the newline alone. -/
theorem print_of_printing_argument_counterexample :
    exec sampleRuntime 2 (Statement.Print none [num 1]) [] emptyContext
      = some (Result.value ObjectHolder.None, [], ⟨"1\n", []⟩) ∧
    exec sampleRuntime 3 (Statement.Print none [Statement.Print none [num 1]]) [] emptyContext
      = some (Result.value ObjectHolder.None, [], ⟨"1\nNone\n", []⟩) ∧
    "1\nNone\n" ≠ "None\n" :=
  ⟨by decide, by decide, by decide⟩

/-- C7 (amended).  The list form of Print, on arguments that evaluate to
values, each evaluated once from left to right with the output holding all
that was written before: the text appended to the output is, argument by
argument, what the evaluation of the argument itself wrote followed by the
rendering of its value (None rendered as the text None), with one space
between consecutive arguments, followed by one newline; the closure and heap
are those the last argument left; Print yields None.  When no argument writes
anything itself, the appended text is the renderings joined by single spaces
and the newline.  With no argument it is the newline alone. -/
theorem print_list_output (rt : Runtime) (fuel : Nat) (args : List Statement)
    (c : Closure) (x : Context) (pieces : List (String × String)) (c2 : Closure) (h2 : Heap)
    (h : ArgsRun rt (exec rt fuel) args c x pieces c2 h2) :
    exec rt (fuel + 1) (Statement.Print none args) c x
      = some (Result.value ObjectHolder.None, c2,
          ⟨x.output ++ appendedText pieces ++ "\n", h2⟩) ∧
    pieces.length = args.length ∧
    ((∀ p ∈ pieces, p.1 = "") →
      exec rt (fuel + 1) (Statement.Print none args) c x
        = some (Result.value ObjectHolder.None, c2,
            ⟨x.output ++ " ".intercalate (pieces.map Prod.snd) ++ "\n", h2⟩)) ∧
    (args = [] → exec rt (fuel + 1) (Statement.Print none args) c x
      = some (Result.value ObjectHolder.None, c, ⟨x.output ++ "\n", x.heap⟩)) := by
  have key := printArgs_run rt (exec rt fuel) args c x pieces c2 h2 h
  have main : exec rt (fuel + 1) (Statement.Print none args) c x
      = some (Result.value ObjectHolder.None, c2,
          ⟨x.output ++ appendedText pieces ++ "\n", h2⟩) := by
    simp only [exec, andThen, key]
  refine ⟨main, argsRun_length rt _ args c x pieces c2 h2 h, ?_, ?_⟩
  · intro hsilent
    rw [main, appendedText_silent pieces hsilent]
  · intro hnil
    subst hnil
    simp [exec, andThen, printArgs]

/-- Witness of C7: Print of None, 1 and the string a writes the line
None 1 a; Print of a Print of 1 and of 2 writes the line 1 and then the line
None 2; Print of nothing writes an empty line. -/
theorem print_list_output_witness :
    exec sampleRuntime 2 (Statement.Print none
        [Statement.Const ObjectHolder.None, num 1, Statement.Const (ObjectHolder.String "a")])
        [] emptyContext
      = some (Result.value ObjectHolder.None, [], ⟨"None 1 a\n", []⟩) ∧
    exec sampleRuntime 3 (Statement.Print none [Statement.Print none [num 1], num 2])
        [] emptyContext
      = some (Result.value ObjectHolder.None, [], ⟨"1\nNone 2\n", []⟩) ∧
    exec sampleRuntime 2 (Statement.Print none []) [] emptyContext
      = some (Result.value ObjectHolder.None, [], ⟨"\n", []⟩) :=
  ⟨((print_list_output sampleRuntime 1
      [Statement.Const ObjectHolder.None, num 1, Statement.Const (ObjectHolder.String "a")]
      [] emptyContext [("", "None"), ("", "1"), ("", "a")] [] []
      (ArgsRun.more _ _ _ _ _ ObjectHolder.None [] emptyContext "" _ _ _ rfl (by decide)
        (ArgsRun.more _ _ _ _ _ (ObjectHolder.Number 1) [] ⟨"None ", []⟩ "" _ _ _ rfl (by decide)
          (ArgsRun.last _ _ _ (ObjectHolder.String "a") [] ⟨"None 1 ", []⟩ "" rfl
            (by decide))))).2.2.1 (by decide)).trans (by decide),
   ((print_list_output sampleRuntime 2 [Statement.Print none [num 1], num 2]
      [] emptyContext [("1\n", "None"), ("", "2")] [] []
      (ArgsRun.more _ _ _ _ _ ObjectHolder.None [] ⟨"1\n", []⟩ "1\n" _ _ _ (by decide)
        (by decide)
        (ArgsRun.last _ _ _ (ObjectHolder.Number 2) [] ⟨"1\nNone ", []⟩ "" (by decide)
          (by decide)))).1).trans (by decide),
   ((print_list_output sampleRuntime 1 [] [] emptyContext [] [] []
      (ArgsRun.nil _ _)).2.2.2 rfl).trans (by decide)⟩

/-! ## NewInstance -/

/-- C8 (the code departs from the claim).  The method make, whose body returns
the result of one NewInstance node, is called twice.  Both calls give the same
instance object (identity 7), held afterwards by a and by b, and the field v
written through a between the calls is read back through b. -/
theorem newInstance_same_object_twice :
    exec sampleRuntime 8 twoCallsProgram [("f", ObjectHolder.ClassInstance 0 0)] emptyContext
      = some (Result.value ObjectHolder.None,
          [("f", ObjectHolder.ClassInstance 0 0), ("a", ObjectHolder.ClassInstance 1 7),
           ("b", ObjectHolder.ClassInstance 1 7)],
          ⟨"", [(7, [("v", ObjectHolder.Number 1)])]⟩) ∧
    exec sampleRuntime 1 (Statement.VariableValue ["b", "v"])
        [("f", ObjectHolder.ClassInstance 0 0), ("a", ObjectHolder.ClassInstance 1 7),
         ("b", ObjectHolder.ClassInstance 1 7)]
        ⟨"", [(7, [("v", ObjectHolder.Number 1)])]⟩
      = some (Result.value (ObjectHolder.Number 1),
          [("f", ObjectHolder.ClassInstance 0 0), ("a", ObjectHolder.ClassInstance 1 7),
           ("b", ObjectHolder.ClassInstance 1 7)],
          ⟨"", [(7, [("v", ObjectHolder.Number 1)])]⟩) :=
  ⟨by decide, by decide⟩

/-- C9. NewInstance with n argument expressions.  When the class or an
ancestor has an __init__ of arity n: if the arguments, evaluated once each
from left to right, every one in the state its predecessor left, give the
values vs, and the call of __init__ on the instance with vs returns, then
NewInstance yields the instance, in the closure the last argument left and the
context that one call left.  When there is no such __init__: NewInstance
yields the instance and leaves closure, heap and output as they were. -/
theorem newInstance_init (rt : Runtime) (fuel : Nat) (cls id : Nat) (args : List Statement)
    (c : Closure) (x : Context) :
    (hasMethod rt cls "__init__" args.length = true →
      ∀ (vs : List ObjectHolder) (c1 : Closure) (x1 : Context) (r : ObjectHolder) (x2 : Context),
        ArgsEval (exec rt fuel) args c x vs c1 x1 →
        call rt (exec rt fuel) cls id "__init__" vs x1 = some (Result.value r, x2) →
        exec rt (fuel + 1) (Statement.NewInstance cls id args) c x
          = some (Result.value (ObjectHolder.ClassInstance cls id), c1, x2)) ∧
    (hasMethod rt cls "__init__" args.length = false →
      exec rt (fuel + 1) (Statement.NewInstance cls id args) c x
        = some (Result.value (ObjectHolder.ClassInstance cls id), c, x)) := by
  constructor
  · intro hm vs c1 x1 r x2 hargs hcall
    have hev := evalArgs_of_argsEval (exec rt fuel) args c x vs c1 x1 hargs
    simp only [exec, hm, if_true, hev, hcall]
  · intro hm
    simp [exec, hm]

/-- Witness of C9: building a Pair from the arguments n = n + 1 and n * 10,
with n bound to 0, evaluates the first argument before the second (values 1
and 10, n left at 1) and runs the constructor once, which stores 1 and 10 in
the fields a and b; building an Item, which has no constructor, changes
nothing. -/
theorem newInstance_init_witness :
    exec pairRuntime 6 (Statement.NewInstance 0 3 orderedArgs)
        [("n", ObjectHolder.Number 0)] emptyContext
      = some (Result.value (ObjectHolder.ClassInstance 0 3), [("n", ObjectHolder.Number 1)],
          ⟨"", [(3, [("a", ObjectHolder.Number 1), ("b", ObjectHolder.Number 10)])]⟩) ∧
    exec sampleRuntime 5 (Statement.NewInstance 1 7 [num 5]) [] emptyContext
      = some (Result.value (ObjectHolder.ClassInstance 1 7), [], emptyContext) :=
  ⟨(newInstance_init pairRuntime 5 0 3 orderedArgs [("n", ObjectHolder.Number 0)]
        emptyContext).1 (by decide)
      [ObjectHolder.Number 1, ObjectHolder.Number 10] [("n", ObjectHolder.Number 1)] emptyContext
      ObjectHolder.None
      ⟨"", [(3, [("a", ObjectHolder.Number 1), ("b", ObjectHolder.Number 10)])]⟩
      (ArgsEval.cons _ _ _ _ (ObjectHolder.Number 1) [("n", ObjectHolder.Number 1)] emptyContext
        _ _ _ (by decide)
        (ArgsEval.cons _ _ _ _ (ObjectHolder.Number 10) [("n", ObjectHolder.Number 1)]
          emptyContext _ _ _ (by decide) (ArgsEval.nil _ _)))
      (by decide),
   (newInstance_init sampleRuntime 4 1 7 [num 5] [] emptyContext).2 (by decide)⟩

/-! ## Variable reads -/

/-- C10 (the code departs from the claim).  A simple name that is not bound
and a last segment that is not a field fail with UnknownName, but the unbound
head of a dotted path and a missing intermediate segment fail with the
out_of_range exception of the map accessor, which is another error. -/
theorem variableValue_missing_segment_errors :
    exec sampleRuntime 1 (Statement.VariableValue ["x"]) [] emptyContext
      = some (Result.error UnknownName, [], emptyContext) ∧
    exec sampleRuntime 1 (Statement.VariableValue ["p", "f"])
        [("p", ObjectHolder.ClassInstance 1 0)] emptyContext
      = some (Result.error UnknownName, [("p", ObjectHolder.ClassInstance 1 0)], emptyContext) ∧
    exec sampleRuntime 1 (Statement.VariableValue ["x", "f"]) [] emptyContext
      = some (Result.error Error.outOfRange, [], emptyContext) ∧
    exec sampleRuntime 1 (Statement.VariableValue ["p", "q", "f"])
        [("p", ObjectHolder.ClassInstance 1 0)] emptyContext
      = some (Result.error Error.outOfRange, [("p", ObjectHolder.ClassInstance 1 0)], emptyContext) ∧
    Error.outOfRange ≠ UnknownName :=
  ⟨by decide, by decide, by decide, by decide, by decide⟩

/-! ## Assignment and fields -/

/-- Reading the key just assigned gives the assigned value. -/
theorem mapFind_mapAssign_same {κ α : Type} [DecidableEq κ] (m : List (κ × α)) (k : κ) (v : α) :
    mapFind (mapAssign m k v) k = some v := by
  induction m with
  | nil => simp [mapAssign, mapFind]
  | cons p m ih =>
    obtain ⟨k1, w⟩ := p
    by_cases h : k1 = k
    · simp [mapAssign, mapFind, h]
    · simp [mapAssign, mapFind, h, ih]

/-- An assignment leaves every other key as it was. -/
theorem mapFind_mapAssign_other {κ α : Type} [DecidableEq κ] (m : List (κ × α)) (k k2 : κ)
    (v : α) (h : k2 ≠ k) : mapFind (mapAssign m k v) k2 = mapFind m k2 := by
  induction m with
  | nil => simp [mapAssign, mapFind, Ne.symm h]
  | cons p m ih =>
    obtain ⟨k1, w⟩ := p
    by_cases h1 : k1 = k
    · subst h1
      simp [mapAssign, mapFind, Ne.symm h]
    · by_cases h2 : k1 = k2
      · subst h2
        simp [mapAssign, mapFind, h]
      · simp [mapAssign, mapFind, h1, h2, ih]

/-- C11. When the right-hand side evaluates to the value v, Assignment yields
v; in the closure it leaves, a read of the assigned name yields v, whether or
not the name was bound before, and every other name is bound as it was after
the evaluation of the right-hand side; the context is the one the right-hand
side left. -/
theorem assignment_binds (rt : Runtime) (fuel : Nat) (var_name : String) (rv : Statement)
    (c : Closure) (x : Context) (v : ObjectHolder) (c1 : Closure) (x1 : Context)
    (h : exec rt fuel rv c x = some (Result.value v, c1, x1)) :
    ∃ c2 : Closure,
      exec rt (fuel + 1) (Statement.Assignment var_name rv) c x = some (Result.value v, c2, x1) ∧
      (∀ n : Nat, exec rt (n + 1) (Statement.VariableValue [var_name]) c2 x1
        = some (Result.value v, c2, x1)) ∧
      (∀ other : String, other ≠ var_name → mapFind c2 other = mapFind c1 other) := by
  refine ⟨mapAssign c1 var_name v, ?_, ?_, ?_⟩
  · simp only [exec, h, andThen]
  · intro n
    simp only [exec, variableValue, mapFind_mapAssign_same]
  · intro other hne
    exact mapFind_mapAssign_other c1 var_name other v hne

/-- Witness of C11: x = 7 creates x when the closure holds only y, overwrites
it when x was bound to a string, and leaves y alone in both cases. -/
theorem assignment_binds_witness :
    (∃ c2 : Closure,
      exec sampleRuntime 2 (Statement.Assignment "x" (num 7))
          [("y", ObjectHolder.Number 1)] emptyContext
        = some (Result.value (ObjectHolder.Number 7), c2, emptyContext) ∧
      (∀ n : Nat, exec sampleRuntime (n + 1) (Statement.VariableValue ["x"]) c2 emptyContext
        = some (Result.value (ObjectHolder.Number 7), c2, emptyContext)) ∧
      (∀ other : String, other ≠ "x" →
        mapFind c2 other = mapFind [("y", ObjectHolder.Number 1)] other)) ∧
    (∃ c2 : Closure,
      exec sampleRuntime 2 (Statement.Assignment "x" (num 7))
          [("x", ObjectHolder.String "old"), ("y", ObjectHolder.Number 1)] emptyContext
        = some (Result.value (ObjectHolder.Number 7), c2, emptyContext) ∧
      (∀ n : Nat, exec sampleRuntime (n + 1) (Statement.VariableValue ["x"]) c2 emptyContext
        = some (Result.value (ObjectHolder.Number 7), c2, emptyContext)) ∧
      (∀ other : String, other ≠ "x" →
        mapFind c2 other
          = mapFind [("x", ObjectHolder.String "old"), ("y", ObjectHolder.Number 1)] other)) :=
  ⟨assignment_binds sampleRuntime 1 "x" (num 7) [("y", ObjectHolder.Number 1)] emptyContext
      (ObjectHolder.Number 7) [("y", ObjectHolder.Number 1)] emptyContext (by decide),
   assignment_binds sampleRuntime 1 "x" (num 7)
      [("x", ObjectHolder.String "old"), ("y", ObjectHolder.Number 1)] emptyContext
      (ObjectHolder.Number 7) [("x", ObjectHolder.String "old"), ("y", ObjectHolder.Number 1)]
      emptyContext (by decide)⟩

/-- The field table of an instance right after a write to one of its fields. -/
theorem fieldsOf_after_write (heap : Heap) (id : Nat) (f : String) (v : ObjectHolder) :
    mapFind (fieldsOf (mapAssign heap id (mapAssign (fieldsOf heap id) f v)) id) f = some v := by
  simp [fieldsOf, mapFind_mapAssign_same]

/-- C12. Let the right-hand side evaluate to v, and let the names target and
alias both hold the same instance afterwards.  FieldAssignment on target and
the field yields v, changes nothing but the heap, and afterwards the dotted
reads alias.field and target.field both yield v, whether or not the instance
had the field before. -/
theorem fieldAssignment_visible_through_alias (rt : Runtime) (fuel : Nat)
    (target aliasName field_name : String) (rv : Statement)
    (c : Closure) (x : Context) (v : ObjectHolder) (c1 : Closure) (x1 : Context)
    (cls id : Nat)
    (hrv : exec rt fuel rv c x = some (Result.value v, c1, x1))
    (htarget : mapFind c1 target = some (ObjectHolder.ClassInstance cls id))
    (halias : mapFind c1 aliasName = some (ObjectHolder.ClassInstance cls id)) :
    ∃ x2 : Context,
      exec rt (fuel + 1) (Statement.FieldAssignment [target] field_name rv) c x
        = some (Result.value v, c1, x2) ∧
      x2.output = x1.output ∧
      (∀ n : Nat, exec rt (n + 1) (Statement.VariableValue [aliasName, field_name]) c1 x2
        = some (Result.value v, c1, x2)) ∧
      (∀ n : Nat, exec rt (n + 1) (Statement.VariableValue [target, field_name]) c1 x2
        = some (Result.value v, c1, x2)) := by
  refine ⟨⟨x1.output, mapAssign x1.heap id (mapAssign (fieldsOf x1.heap id) field_name v)⟩,
    ?_, rfl, ?_, ?_⟩
  · simp only [exec, hrv, andThen, variableValue, htarget]
  · intro n
    simp only [exec, variableValue, halias, walkFields, fieldsOf_after_write]
  · intro n
    simp only [exec, variableValue, htarget, walkFields, fieldsOf_after_write]

/-- Witness of C12: with a and b bound to the same Item, a.f = 1 creates the
field and both a.f and b.f read 1. -/
theorem fieldAssignment_visible_through_alias_witness :
    ∃ x2 : Context,
      exec sampleRuntime 2 (Statement.FieldAssignment ["a"] "f" (num 1))
          [("a", ObjectHolder.ClassInstance 1 7), ("b", ObjectHolder.ClassInstance 1 7)]
          emptyContext
        = some (Result.value (ObjectHolder.Number 1),
            [("a", ObjectHolder.ClassInstance 1 7), ("b", ObjectHolder.ClassInstance 1 7)], x2) ∧
      x2.output = emptyContext.output ∧
      (∀ n : Nat, exec sampleRuntime (n + 1) (Statement.VariableValue ["b", "f"])
          [("a", ObjectHolder.ClassInstance 1 7), ("b", ObjectHolder.ClassInstance 1 7)] x2
        = some (Result.value (ObjectHolder.Number 1),
            [("a", ObjectHolder.ClassInstance 1 7), ("b", ObjectHolder.ClassInstance 1 7)], x2)) ∧
      (∀ n : Nat, exec sampleRuntime (n + 1) (Statement.VariableValue ["a", "f"])
          [("a", ObjectHolder.ClassInstance 1 7), ("b", ObjectHolder.ClassInstance 1 7)] x2
        = some (Result.value (ObjectHolder.Number 1),
            [("a", ObjectHolder.ClassInstance 1 7), ("b", ObjectHolder.ClassInstance 1 7)], x2)) :=
  fieldAssignment_visible_through_alias sampleRuntime 1 "a" "b" "f" (num 1)
    [("a", ObjectHolder.ClassInstance 1 7), ("b", ObjectHolder.ClassInstance 1 7)] emptyContext
    (ObjectHolder.Number 1)
    [("a", ObjectHolder.ClassInstance 1 7), ("b", ObjectHolder.ClassInstance 1 7)] emptyContext
    1 7 (by decide) (by decide) (by decide)

/-! ## Stringify and IfElse -/

/-- The decimal text of an int: the digits of a non-negative value, a minus
sign and the digits of the absolute value otherwise. -/
theorem int_decimal_text (n : Int) :
    (0 ≤ n → toString n = Nat.repr n.toNat) ∧
    (n < 0 → toString n = "-" ++ Nat.repr n.natAbs) := by
  cases n with
  | ofNat m =>
    refine ⟨fun _ => rfl, fun h => ?_⟩
    exact absurd h (by simp)
  | negSucc m =>
    refine ⟨fun h => ?_, fun _ => rfl⟩
    exact absurd h (by simp)

/-- C13. When its argument evaluates to a value, Stringify yields a String,
in the state the argument left, whose text depends on the kind of the value
only: for a Number the decimal text of its value, with a leading minus sign
when negative; for a String the same text; for a ClassInstance the text its
rendering writes; for every other value (None, both Bools, a Class) the text
None. -/
theorem stringify_contract (rt : Runtime) (fuel : Nat) (argument : Statement)
    (c : Closure) (x : Context) (v : ObjectHolder) (c1 : Closure) (x1 : Context)
    (h : exec rt fuel argument c x = some (Result.value v, c1, x1)) :
    ∃ s : String,
      exec rt (fuel + 1) (Statement.Stringify argument) c x
        = some (Result.value (ObjectHolder.String s), c1, x1) ∧
      (∀ n : Int, v = ObjectHolder.Number n →
        s = toString n ∧ (0 ≤ n → s = Nat.repr n.toNat) ∧
        (n < 0 → s = "-" ++ Nat.repr n.natAbs)) ∧
      (∀ t : String, v = ObjectHolder.String t → s = t) ∧
      (∀ cls id : Nat, v = ObjectHolder.ClassInstance cls id →
        s = printedText rt x1.heap (ObjectHolder.ClassInstance cls id)) ∧
      (v = ObjectHolder.None → s = "None") ∧
      (∀ b : Bool, v = ObjectHolder.Bool b → s = "None") ∧
      (∀ k : Nat, v = ObjectHolder.Class k → s = "None") := by
  refine ⟨stringifyText rt x1.heap v, ?_, ?_, ?_, ?_, ?_, ?_, ?_⟩
  · simp only [exec, h, andThen]
  · intro n hv
    subst hv
    exact ⟨rfl, (int_decimal_text n).1, (int_decimal_text n).2⟩
  · intro t hv; subst hv; rfl
  · intro cls id hv; subst hv; rfl
  · intro hv; subst hv; rfl
  · intro b hv; subst hv; rfl
  · intro k hv; subst hv; rfl

/-- Witness of C13: str(-12) is the text -12, and str(True) is the text
None. -/
theorem stringify_contract_witness :
    (∃ s : String,
      exec sampleRuntime 2 (Statement.Stringify (num (-12))) [] emptyContext
        = some (Result.value (ObjectHolder.String s), [], emptyContext) ∧ s = "-12") ∧
    (∃ s : String,
      exec sampleRuntime 2 (Statement.Stringify (Statement.Const (ObjectHolder.Bool true)))
          [] emptyContext
        = some (Result.value (ObjectHolder.String s), [], emptyContext) ∧ s = "None") :=
  ⟨(stringify_contract sampleRuntime 1 (num (-12)) [] emptyContext (ObjectHolder.Number (-12))
      [] emptyContext (by decide)).imp
      (fun _ hs => ⟨hs.1, ((hs.2.1 (-12) rfl).1).trans (by decide)⟩),
   (stringify_contract sampleRuntime 1 (Statement.Const (ObjectHolder.Bool true)) [] emptyContext
      (ObjectHolder.Bool true) [] emptyContext (by decide)).imp
      (fun _ hs => ⟨hs.1, hs.2.2.2.2.2.1 true rfl⟩)⟩

/-- C14. IfElse whose condition evaluates to a Bool: when it is true the node
finishes exactly as the if-branch does, run in the state the condition left;
when it is false and there is an else-branch, exactly as the else-branch does;
when it is false without an else-branch it yields None in the state the
condition left.  The branch not selected does not occur in the result. -/
theorem ifElse_selects_branch (rt : Runtime) (fuel : Nat) (condition if_body : Statement)
    (else_body : Option Statement) (c : Closure) (x : Context) (b : Bool)
    (c1 : Closure) (x1 : Context)
    (hc : exec rt fuel condition c x = some (Result.value (ObjectHolder.Bool b), c1, x1)) :
    exec rt (fuel + 1) (Statement.IfElse condition if_body else_body) c x
      = (if b then exec rt fuel if_body c1 x1
         else match else_body with
           | some e => exec rt fuel e c1 x1
           | none => some (Result.value ObjectHolder.None, c1, x1)) := by
  cases b <;> simp [exec, hc, andThen]

/-- Witness of C14, with a condition that counts its evaluations in n and
branches that print: the true case prints only the if-branch, the false case
only the else-branch, the false case without else-branch nothing, and n is 1
every time. -/
theorem ifElse_selects_branch_witness :
    exec sampleRuntime 7 (Statement.IfElse (countingCondition true)
        (Statement.Print none [num 1]) (some (Statement.Print none [num 2])))
        [("n", ObjectHolder.Number 0)] emptyContext
      = some (Result.value ObjectHolder.None, [("n", ObjectHolder.Number 1)], ⟨"1\n", []⟩) ∧
    exec sampleRuntime 7 (Statement.IfElse (countingCondition false)
        (Statement.Print none [num 1]) (some (Statement.Print none [num 2])))
        [("n", ObjectHolder.Number 0)] emptyContext
      = some (Result.value ObjectHolder.None, [("n", ObjectHolder.Number 1)], ⟨"2\n", []⟩) ∧
    exec sampleRuntime 7 (Statement.IfElse (countingCondition false)
        (Statement.Print none [num 1]) none)
        [("n", ObjectHolder.Number 0)] emptyContext
      = some (Result.value ObjectHolder.None, [("n", ObjectHolder.Number 1)], emptyContext) :=
  ⟨(ifElse_selects_branch sampleRuntime 6 (countingCondition true)
        (Statement.Print none [num 1]) (some (Statement.Print none [num 2]))
        [("n", ObjectHolder.Number 0)] emptyContext true [("n", ObjectHolder.Number 1)]
        emptyContext (by decide)).trans (by decide),
   (ifElse_selects_branch sampleRuntime 6 (countingCondition false)
        (Statement.Print none [num 1]) (some (Statement.Print none [num 2]))
        [("n", ObjectHolder.Number 0)] emptyContext false [("n", ObjectHolder.Number 1)]
        emptyContext (by decide)).trans (by decide),
   (ifElse_selects_branch sampleRuntime 6 (countingCondition false)
        (Statement.Print none [num 1]) none
        [("n", ObjectHolder.Number 0)] emptyContext false [("n", ObjectHolder.Number 1)]
        emptyContext (by decide)).trans (by decide)⟩

/-! ## MethodCall -/

/-- C15 (the code departs from the claim).  A MethodCall whose receiver
evaluates to a Number, a String, a Bool or None applies the arrow to the null
result of TryAs: evaluation ends in undefined behaviour, not in a thrown
error. -/
theorem methodCall_on_non_instance :
    exec sampleRuntime 2 (Statement.MethodCall (num 1) "f" []) [] emptyContext
      = some (Result.error Error.undefined, [], emptyContext) ∧
    exec sampleRuntime 2 (Statement.MethodCall (Statement.Const (ObjectHolder.String "s")) "f" [])
        [] emptyContext
      = some (Result.error Error.undefined, [], emptyContext) ∧
    exec sampleRuntime 2 (Statement.MethodCall (Statement.Const (ObjectHolder.Bool true)) "f" [])
        [] emptyContext
      = some (Result.error Error.undefined, [], emptyContext) ∧
    exec sampleRuntime 2 (Statement.MethodCall (Statement.Const ObjectHolder.None) "f" [])
        [] emptyContext
      = some (Result.error Error.undefined, [], emptyContext) :=
  ⟨by decide, by decide, by decide, by decide⟩

/-- C17 (the claim as stated fails).  With p bound to the instance whose t is
1 and q to the instance whose t is 2, the call p.tag(p = q) is dispatched on
the instance of q and yields 2, although the receiver p denoted the other
instance before the argument was evaluated, on which tag yields 1. -/
theorem methodCall_receiver_after_args_counterexample :
    exec tagRuntime 1 (Statement.VariableValue ["p"]) twoTagged twoTaggedContext
      = some (Result.value (ObjectHolder.ClassInstance 0 0), twoTagged, twoTaggedContext) ∧
    call tagRuntime (exec tagRuntime 4) 0 0 "tag" [ObjectHolder.ClassInstance 0 1]
        twoTaggedContext
      = some (Result.value (ObjectHolder.Number 1), twoTaggedContext) ∧
    exec tagRuntime 5 rebindingCall twoTagged twoTaggedContext
      = some (Result.value (ObjectHolder.Number 2),
          [("p", ObjectHolder.ClassInstance 0 1), ("q", ObjectHolder.ClassInstance 0 1)],
          twoTaggedContext) :=
  ⟨by decide, by decide, by decide⟩

/-- C17 (amended).  MethodCall evaluates its argument expressions first, once
each from left to right, every one in the state its predecessor left, and its
receiver expression after all of them, in the closure and context the last
argument left; the method is dispatched on the instance the receiver denotes
then, with the argument values in order. -/
theorem methodCall_args_then_receiver (rt : Runtime) (fuel : Nat) (object : Statement)
    (method : String) (args : List Statement) (c : Closure) (x : Context)
    (vs : List ObjectHolder) (c1 : Closure) (x1 : Context) (cls id : Nat)
    (c2 : Closure) (x2 : Context)
    (hargs : ArgsEval (exec rt fuel) args c x vs c1 x1)
    (hobj : exec rt fuel object c1 x1
      = some (Result.value (ObjectHolder.ClassInstance cls id), c2, x2)) :
    exec rt (fuel + 1) (Statement.MethodCall object method args) c x
      = withClosure c2 (call rt (exec rt fuel) cls id method vs x2) := by
  have hev := evalArgs_of_argsEval (exec rt fuel) args c x vs c1 x1 hargs
  simp only [exec, hev, hobj, andThen]

/-- Witness of the amended C17: in p.sum(n = n + 1, n * 10, p = q), with n
bound to 0, the field t of the instance of p at 100 and that of q at 200, the
arguments give 1 and 10 (the first was evaluated before the second), the
receiver is read after the third argument rebound p, and the call runs on the
instance of q: the result is 200 + 1 + 10. -/
theorem methodCall_args_then_receiver_witness :
    exec pairRuntime 7 orderedRebindingCall twoPairs
        ⟨"", [(0, [("t", ObjectHolder.Number 100)]), (1, [("t", ObjectHolder.Number 200)])]⟩
      = some (Result.value (ObjectHolder.Number 211), twoPairsAfter,
          ⟨"", [(0, [("t", ObjectHolder.Number 100)]), (1, [("t", ObjectHolder.Number 200)])]⟩) :=
  (methodCall_args_then_receiver pairRuntime 6 (Statement.VariableValue ["p"]) "sum"
    (orderedArgs ++ [Statement.Assignment "p" (Statement.VariableValue ["q"])]) twoPairs
    ⟨"", [(0, [("t", ObjectHolder.Number 100)]), (1, [("t", ObjectHolder.Number 200)])]⟩
    [ObjectHolder.Number 1, ObjectHolder.Number 10, ObjectHolder.ClassInstance 0 1]
    twoPairsAfter
    ⟨"", [(0, [("t", ObjectHolder.Number 100)]), (1, [("t", ObjectHolder.Number 200)])]⟩
    0 1 twoPairsAfter
    ⟨"", [(0, [("t", ObjectHolder.Number 100)]), (1, [("t", ObjectHolder.Number 200)])]⟩
    (ArgsEval.cons _ _ _ _ (ObjectHolder.Number 1)
      [("n", ObjectHolder.Number 1), ("p", ObjectHolder.ClassInstance 0 0),
       ("q", ObjectHolder.ClassInstance 0 1)]
      ⟨"", [(0, [("t", ObjectHolder.Number 100)]), (1, [("t", ObjectHolder.Number 200)])]⟩
      _ _ _ (by decide)
      (ArgsEval.cons _ _ _ _ (ObjectHolder.Number 10)
        [("n", ObjectHolder.Number 1), ("p", ObjectHolder.ClassInstance 0 0),
         ("q", ObjectHolder.ClassInstance 0 1)]
        ⟨"", [(0, [("t", ObjectHolder.Number 100)]), (1, [("t", ObjectHolder.Number 200)])]⟩
        _ _ _ (by decide)
        (ArgsEval.cons _ _ _ _ (ObjectHolder.ClassInstance 0 1) twoPairsAfter
          ⟨"", [(0, [("t", ObjectHolder.Number 100)]), (1, [("t", ObjectHolder.Number 200)])]⟩
          _ _ _ (by decide) (ArgsEval.nil _ _))))
    (by decide)).trans (by decide)

/-! ## Operand evaluation counts -/

/-- C16 (the code departs from the claim).  With x bound to 0, the node
5 - (x = x + 1) yields 4 and leaves x bound to 2: the right operand was
evaluated twice.  Add, Mult and Div on the same operands leave x bound to 1. -/
theorem sub_evaluates_rhs_twice :
    exec sampleRuntime 5 (Statement.Sub (num 5) (increment "x"))
        [("x", ObjectHolder.Number 0)] emptyContext
      = some (Result.value (ObjectHolder.Number 4), [("x", ObjectHolder.Number 2)], emptyContext) ∧
    exec sampleRuntime 5 (Statement.Add (num 5) (increment "x"))
        [("x", ObjectHolder.Number 0)] emptyContext
      = some (Result.value (ObjectHolder.Number 6), [("x", ObjectHolder.Number 1)], emptyContext) ∧
    exec sampleRuntime 5 (Statement.Mult (num 5) (increment "x"))
        [("x", ObjectHolder.Number 0)] emptyContext
      = some (Result.value (ObjectHolder.Number 5), [("x", ObjectHolder.Number 1)], emptyContext) ∧
    exec sampleRuntime 5 (Statement.Div (num 5) (increment "x"))
        [("x", ObjectHolder.Number 0)] emptyContext
      = some (Result.value (ObjectHolder.Number 5), [("x", ObjectHolder.Number 1)], emptyContext) :=
  ⟨by decide, by decide, by decide, by decide⟩

/-- C18 (the code departs from the claim).  With x bound to 0, the
single-argument form of Print applied to x = x + 1 writes the line 2 and
leaves x bound to 2: the argument was evaluated twice.  The list form with the
same single argument writes the line 1 and leaves x bound to 1. -/
theorem print_legacy_evaluates_twice :
    exec sampleRuntime 5 (Statement.Print (some (increment "x")) [])
        [("x", ObjectHolder.Number 0)] emptyContext
      = some (Result.value ObjectHolder.None, [("x", ObjectHolder.Number 2)], ⟨"2\n", []⟩) ∧
    exec sampleRuntime 5 (Statement.Print none [increment "x"])
        [("x", ObjectHolder.Number 0)] emptyContext
      = some (Result.value ObjectHolder.None, [("x", ObjectHolder.Number 1)], ⟨"1\n", []⟩) :=
  ⟨by decide, by decide⟩

/-! ## Frame properties -/

/-- C19. VariableValue, for every dotted path, closure and context, finishes
with the closure and the context (heap and output) it started with, whether it
yields a value or fails; it never starts a return transfer. -/
theorem variableValue_changes_nothing (rt : Runtime) (fuel : Nat) (dotted_ids : List String)
    (c : Closure) (x : Context) :
    ∃ r : Result,
      exec rt (fuel + 1) (Statement.VariableValue dotted_ids) c x = some (r, c, x) ∧
      ∀ v : ObjectHolder, r ≠ Result.returned v := by
  refine ⟨variableValue dotted_ids c x.heap, by simp only [exec], ?_⟩
  intro v
  have hwalk : ∀ (rest : List String) (obj : ObjectHolder),
      walkFields x.heap obj rest ≠ Result.returned v := by
    intro rest
    induction rest with
    | nil => intro obj; simp [walkFields]
    | cons seg rest ih =>
      intro obj
      cases rest with
      | nil =>
        cases obj <;> simp only [walkFields] <;> try simp
        split <;> simp
      | cons seg2 rest2 =>
        cases obj <;> simp only [walkFields] <;> try simp
        split
        · exact ih _
        · simp
  unfold variableValue
  split
  · simp
  · split <;> simp
  · split
    · exact hwalk _ _
    · simp

/-- C20. When the class has no __init__ whose arity is the number of argument
expressions, NewInstance yields the instance with the closure and the context
unchanged, whatever the argument expressions are: none of them is evaluated. -/
theorem newInstance_skips_args (rt : Runtime) (fuel : Nat) (cls id : Nat)
    (args : List Statement) (c : Closure) (x : Context)
    (h : hasMethod rt cls "__init__" args.length = false) :
    exec rt (fuel + 1) (Statement.NewInstance cls id args) c x
      = some (Result.value (ObjectHolder.ClassInstance cls id), c, x) := by
  simp [exec, h]

/-- Witness of C20: an Item built from an argument that prints and an argument
that reads an unbound name comes back with nothing printed and no error, while
a Point, whose constructor has arity 1, built from the failing argument
fails. -/
theorem newInstance_skips_args_witness :
    exec sampleRuntime 1 (Statement.NewInstance 1 7
        [Statement.Print none [num 1], Statement.VariableValue ["zz"]]) [] emptyContext
      = some (Result.value (ObjectHolder.ClassInstance 1 7), [], emptyContext) ∧
    exec sampleRuntime 3 (Statement.NewInstance 2 3 [Statement.VariableValue ["zz"]])
        [] emptyContext
      = some (Result.error UnknownName, [], emptyContext) :=
  ⟨newInstance_skips_args sampleRuntime 0 1 7
      [Statement.Print none [num 1], Statement.VariableValue ["zz"]] [] emptyContext (by decide),
   by decide⟩

end Mython
